import Mathlib

/-!
Shallow embedding of the telemetry alert engine
(cmd/alert-engine/alert_engine.go and the API server file) and proofs
about its rule evaluation, action dispatch, persistence and consumer loop.

Modelling conventions:
- Go float64 metric fields are modelled as rationals. Incoming samples are
  always finite (JSON numbers decode to finite float64 values), and every
  comparison the rules perform is against a small decimal constant, where
  rational and float comparison agree for the inputs considered here.
- The one place where IEEE special values can arise, the memory-percentage
  division, is modelled explicitly with an extended value type FVal so that
  division by zero follows Go float semantics (x/0 is +Inf for x > 0, -Inf
  for x < 0 and NaN for x = 0, and NaN comparisons are false).
- The Postgres store is modelled as an in-memory DBState; SQL statements
  become pure state transformers. The one store operation whose failure the
  code tolerates inline (the node-status UPDATE in TakeAction) takes an
  explicit failure-injection flag. TakeAction additionally returns a trace
  of the store side effects it attempts, in order.
-/

namespace Telemetry

/-- Result of a Go float64 computation: a finite rational, +Inf, -Inf or NaN. -/
inductive FVal where
  | fin : ℚ → FVal
  | posInf : FVal
  | negInf : FVal
  | nan : FVal
deriving DecidableEq, Repr

/-- The Go comparison v > c for a computed float v and a finite literal c:
+Inf > c is true; -Inf > c and NaN > c are false. -/
def FVal.gtQ : FVal → ℚ → Bool
  | .fin x, c => decide (c < x)
  | .posInf, _ => true
  | .negInf, _ => false
  | .nan, _ => false

/-- Rendering of a float value into a message string. Digit-level formatting
(the %.1f verb) is abstracted; no property proved here depends on it. -/
def FVal.str : FVal → String
  | .fin x => toString x
  | .posInf => "+Inf"
  | .negInf => "-Inf"
  | .nan => "NaN"

/-- GPUMetric from alert_engine.go (the decoded Kafka payload).
CollectedAt timestamps are abstracted to Nat. -/
structure GPUMetric where
  NodeID : String
  GPUIndex : Int
  TemperatureCelsius : ℚ
  PowerWatts : ℚ
  MemoryUsedMB : ℚ
  MemoryTotalMB : ℚ
  UtilizationPercent : ℚ
  SMClockMHz : Int
  CollectedAt : Nat
deriving DecidableEq, Repr

/-- Alert from alert_engine.go: an in-memory alert candidate produced by
EvaluateRules, input to CreateAlert. -/
structure Alert where
  NodeID : String
  GPUIndex : Int
  AlertType : String
  Severity : String
  Message : String
  ThresholdValue : ℚ
  ActualValue : FVal
deriving DecidableEq, Repr

/-- Message of the high_temperature alert (Sprintf formatting abstracted). -/
def tempMessage (t : ℚ) : String :=
  "GPU temperature is " ++ toString t ++ "C"

/-- Message of the high_power alert (Sprintf formatting abstracted). -/
def powerMessage (p : ℚ) : String :=
  "GPU power consumption is " ++ toString p ++ "W"

/-- Message of the high_memory alert (Sprintf formatting abstracted). -/
def memMessage (p : FVal) : String :=
  "GPU memory usage is " ++ p.str ++ "%"

/-- The expression (metric.MemoryUsedMB / metric.MemoryTotalMB) * 100.0 from
EvaluateRules, with Go float division-by-zero semantics made explicit:
for total = 0 the quotient is +Inf, -Inf or NaN depending on the sign of
used, and multiplying by 100 preserves that; otherwise the value is the
finite quotient times 100. -/
def memoryPercent (used total : ℚ) : FVal :=
  if total = 0 then
    if 0 < used then .posInf
    else if used < 0 then .negInf
    else .nan
  else .fin (used / total * 100)

/-- EvaluateRules from alert_engine.go: checks one metric sample against the
three fixed threshold rules and returns the alert candidates in rule
declaration order. -/
def EvaluateRules (metric : GPUMetric) : List Alert :=
  -- Rule 1: High temperature (> 90 C), critical above 95 C
  let alerts1 : List Alert :=
    if 90 < metric.TemperatureCelsius then
      [{ NodeID := metric.NodeID
         GPUIndex := metric.GPUIndex
         AlertType := "high_temperature"
         Severity := if 95 < metric.TemperatureCelsius then "critical" else "warning"
         Message := tempMessage metric.TemperatureCelsius
         ThresholdValue := 90
         ActualValue := .fin metric.TemperatureCelsius }]
    else []
  -- Rule 2: High power consumption (> 330 W)
  let alerts2 : List Alert :=
    if 330 < metric.PowerWatts then
      [{ NodeID := metric.NodeID
         GPUIndex := metric.GPUIndex
         AlertType := "high_power"
         Severity := "warning"
         Message := powerMessage metric.PowerWatts
         ThresholdValue := 330
         ActualValue := .fin metric.PowerWatts }]
    else []
  -- Rule 3: High memory usage (> 95 percent)
  let memPct := memoryPercent metric.MemoryUsedMB metric.MemoryTotalMB
  let alerts3 : List Alert :=
    if memPct.gtQ 95 then
      [{ NodeID := metric.NodeID
         GPUIndex := metric.GPUIndex
         AlertType := "high_memory"
         Severity := "warning"
         Message := memMessage memPct
         ThresholdValue := 95
         ActualValue := memPct }]
    else []
  alerts1 ++ alerts2 ++ alerts3

/-- A row of the gpu_nodes table (init.sql); id and created_at omitted,
last_seen abstracted to Nat. -/
structure NodeRow where
  node_id : String
  hostname : String
  datacenter : String
  status : String
  last_seen : Nat
deriving DecidableEq, Repr

/-- A row of the alerts table (init.sql); triggered_at abstracted away,
resolved_at as an optional abstract timestamp. -/
structure AlertRow where
  id : Nat
  node_id : String
  gpu_index : Int
  alert_type : String
  severity : String
  message : String
  threshold_value : ℚ
  actual_value : FVal
  status : String
  resolved_at : Option Nat
deriving DecidableEq, Repr

/-- A row of the alert_actions table (init.sql); the JSONB details payload is
modelled as an association list of string keys to string values. -/
structure ActionRow where
  alert_id : Nat
  action_type : String
  action_status : String
  action_details : List (String × String)
deriving DecidableEq, Repr

/-- The relevant state of the Postgres database: the four tables written or
read by the engine and the API server, plus the SERIAL counter that assigns
alert ids (RETURNING id in CreateAlert). -/
structure DBState where
  nodes : List NodeRow
  metrics : List GPUMetric
  alerts : List AlertRow
  actions : List ActionRow
  next_alert_id : Nat
deriving DecidableEq, Repr

/-- A store side effect attempted by TakeAction, in attempt order. -/
inductive DBEffect where
  | updateNodeStatus (node_id status : String)
  | insertAction (row : ActionRow)
deriving DecidableEq, Repr

/-- StoreMetric from alert_engine.go: INSERT one row into gpu_metrics. -/
def StoreMetric (metric : GPUMetric) (db : DBState) : DBState :=
  { db with metrics := db.metrics ++ [metric] }

/-- The action_details payload TakeAction builds for a critical alert. -/
def criticalDetails (alert : Alert) : List (String × String) :=
  [("action", "migrate_workloads"),
   ("from_node", alert.NodeID),
   ("from_gpu", toString alert.GPUIndex),
   ("reason", alert.Message)]

/-- The action_details payload TakeAction builds for a warning alert. -/
def warningDetails (alert : Alert) : List (String × String) :=
  [("action", "send_notification"),
   ("channel", "slack"),
   ("message", alert.Message)]

/-- TakeAction from alert_engine.go. The switch on alert.Severity has cases
for critical (UPDATE gpu_nodes SET status = degraded, then log) and warning
(log only); it has no default case, so any other severity leaves actionType
as the empty string and actionDetails empty. After the switch the function
unconditionally INSERTs one alert_actions row with action_status executed.
The updateFails flag injects a failure of the node-status UPDATE, which the
code only logs; the effect trace records the UPDATE as attempted either way,
in the order the statements execute. -/
def TakeAction (updateFails : Bool) (alertID : Nat) (alert : Alert) (db : DBState) :
    DBState × List DBEffect :=
  let step :=
    if alert.Severity = "critical" then
      let db1 :=
        if updateFails then db
        else { db with
                nodes := db.nodes.map fun n =>
                  if n.node_id = alert.NodeID then { n with status := "degraded" } else n }
      ("workload_migration", criticalDetails alert, db1,
       [DBEffect.updateNodeStatus alert.NodeID "degraded"])
    else if alert.Severity = "warning" then
      ("notification", warningDetails alert, db, ([] : List DBEffect))
    else
      ("", ([] : List (String × String)), db, ([] : List DBEffect))
  let actionType := step.1
  let actionDetails := step.2.1
  let db1 := step.2.2.1
  let effects := step.2.2.2
  let row : ActionRow :=
    { alert_id := alertID, action_type := actionType,
      action_status := "executed", action_details := actionDetails }
  ({ db1 with actions := db1.actions ++ [row] },
   effects ++ [DBEffect.insertAction row])

/-- CreateAlert from alert_engine.go: INSERT into alerts with status active,
take the store-assigned id (RETURNING id), then call TakeAction. Returns the
final state, the new alert id and the trace of TakeAction effects. -/
def CreateAlert (updateFails : Bool) (alert : Alert) (db : DBState) :
    DBState × Nat × List DBEffect :=
  let alertID := db.next_alert_id
  let row : AlertRow :=
    { id := alertID, node_id := alert.NodeID, gpu_index := alert.GPUIndex,
      alert_type := alert.AlertType, severity := alert.Severity,
      message := alert.Message, threshold_value := alert.ThresholdValue,
      actual_value := alert.ActualValue, status := "active", resolved_at := none }
  let db1 := { db with alerts := db.alerts ++ [row], next_alert_id := alertID + 1 }
  let out := TakeAction updateFails alertID alert db1
  (out.1, alertID, out.2)

/-- One iteration of the default branch of Run from alert_engine.go, for one
fetched message. The argument is the result of json.Unmarshal on the payload:
none models a decode failure, in which case the code logs, commits the
message and continues; otherwise the metric is stored, rules are evaluated
and each candidate goes through CreateAlert, then the message is committed.
The returned Bool is whether the message offset was committed. -/
def RunStep (updateFails : Bool) (decoded : Option GPUMetric) (db : DBState) :
    DBState × Bool :=
  match decoded with
  | none => (db, true)
  | some metric =>
    let db1 := StoreMetric metric db
    let alerts := EvaluateRules metric
    let db2 := alerts.foldl (fun s a => (CreateAlert updateFails a s).1) db1
    (db2, true)

/-- Outcome of the resolveAlert HTTP handler, as the handler distinguishes
them: a successful resolution (200 with the id), sql.ErrNoRows mapped to a
404 Alert-not-found, and any other store error mapped to a 500. -/
inductive ResolveOutcome where
  | resolved (id : Nat)
  | notFound
  | storeError
deriving DecidableEq, Repr

/-- The HTTP status code the resolveAlert handler writes for each outcome. -/
def ResolveOutcome.httpStatus : ResolveOutcome → Nat
  | .resolved _ => 200
  | .notFound => 404
  | .storeError => 500

/-- resolveAlert from the API server file: UPDATE alerts SET status =
resolved, resolved_at = NOW() WHERE id = $1 RETURNING id. Zero matched rows
surface as sql.ErrNoRows, mapped to notFound; an infrastructure failure of
the query (injected by storeFails) is mapped to storeError. -/
def resolveAlert (storeFails : Bool) (now : Nat) (alertID : Nat) (db : DBState) :
    DBState × ResolveOutcome :=
  if storeFails then (db, .storeError)
  else if db.alerts.any (fun a => a.id == alertID) then
    ({ db with
        alerts := db.alerts.map fun a =>
          if a.id = alertID then { a with status := "resolved", resolved_at := some now }
          else a },
     .resolved alertID)
  else (db, .notFound)

/-- The alert_actions rows recorded for a given alert id. -/
def actionsFor (db : DBState) (alertID : Nat) : List ActionRow :=
  db.actions.filter (fun r => r.alert_id == alertID)

/-! Concrete inputs used by witnesses and counterexamples. -/

/-- The spec's test vector: temperature 96, power 340, mem_used 78000,
mem_total 80000 (97.5 percent). -/
def sampleC4 : GPUMetric :=
  { NodeID := "node-1", GPUIndex := 0, TemperatureCelsius := 96, PowerWatts := 340,
    MemoryUsedMB := 78000, MemoryTotalMB := 80000, UtilizationPercent := 50,
    SMClockMHz := 1410, CollectedAt := 0 }

/-- A sample with mem_total_mb = 0 and positive mem_used_mb; the other
readings are below every threshold. -/
def zeroTotalSample : GPUMetric :=
  { NodeID := "node-1", GPUIndex := 0, TemperatureCelsius := 50, PowerWatts := 100,
    MemoryUsedMB := 1, MemoryTotalMB := 0, UtilizationPercent := 0,
    SMClockMHz := 1410, CollectedAt := 0 }

/-- The node-1 seed row of init.sql. -/
def node1 : NodeRow :=
  { node_id := "node-1", hostname := "dgx-gpu-01.nvidia.com", datacenter := "us-west-1",
    status := "healthy", last_seen := 0 }

/-- The node-2 seed row of init.sql. -/
def node2 : NodeRow :=
  { node_id := "node-2", hostname := "dgx-gpu-02.nvidia.com", datacenter := "us-west-1",
    status := "healthy", last_seen := 0 }

/-- A small database state: the two seed nodes, no metrics, alerts or
actions yet, next alert id 3. -/
def db0 : DBState :=
  { nodes := [node1, node2], metrics := [], alerts := [], actions := [],
    next_alert_id := 3 }

/-- An alert carrying a severity the TakeAction switch has no case for. -/
def infoAlert : Alert :=
  { NodeID := "node-1", GPUIndex := 0, AlertType := "high_temperature",
    Severity := "info", Message := "GPU temperature is 91C",
    ThresholdValue := 90, ActualValue := .fin 91 }

/-- A sample with temperature strictly between 90 and 95 and all other
readings below their thresholds. -/
def sample93 : GPUMetric :=
  { NodeID := "node-2", GPUIndex := 1, TemperatureCelsius := 93, PowerWatts := 100,
    MemoryUsedMB := 1000, MemoryTotalMB := 80000, UtilizationPercent := 10,
    SMClockMHz := 1410, CollectedAt := 5 }

/-- The high_temperature candidates among the output of EvaluateRules. -/
def tempCandidates (m : GPUMetric) : List Alert :=
  (EvaluateRules m).filter (fun a => a.AlertType == "high_temperature")

/-- A critical high_temperature alert candidate for node-1. -/
def criticalAlert : Alert :=
  { NodeID := "node-1", GPUIndex := 0, AlertType := "high_temperature",
    Severity := "critical", Message := "GPU temperature is 96C",
    ThresholdValue := 90, ActualValue := .fin 96 }

/-- A warning high_power alert candidate for node-2. -/
def warningAlert : Alert :=
  { NodeID := "node-2", GPUIndex := 1, AlertType := "high_power",
    Severity := "warning", Message := "GPU power consumption is 340W",
    ThresholdValue := 330, ActualValue := .fin 340 }

/-- A persisted active alert row with id 1. -/
def alertRow1 : AlertRow :=
  { id := 1, node_id := "node-1", gpu_index := 0, alert_type := "high_temperature",
    severity := "critical", message := "GPU temperature is 96C",
    threshold_value := 90, actual_value := .fin 96, status := "active",
    resolved_at := none }

/-- A database state holding exactly one active alert, with id 1. -/
def dbWithAlert : DBState :=
  { nodes := [node1, node2], metrics := [], alerts := [alertRow1], actions := [],
    next_alert_id := 2 }

/-! Claim theorems. -/

/-- C4: on the sample with temperature 96, power 340, mem_used 78000,
mem_total 80000, EvaluateRules returns exactly three candidates, a critical
high_temperature, a warning high_power and a warning high_memory with actual
value 97.5, in exactly rule declaration order. -/
theorem evaluateRules_sample_three_candidates_in_order :
    (EvaluateRules sampleC4).map (fun a => (a.AlertType, a.Severity)) =
      [("high_temperature", "critical"), ("high_power", "warning"),
       ("high_memory", "warning")] ∧
    (EvaluateRules sampleC4).map (fun a => a.ActualValue) =
      [.fin 96, .fin 340, .fin (97.5 : ℚ)] ∧
    (EvaluateRules sampleC4).length = 3 := by
  refine ⟨?_, ?_, ?_⟩ <;>
    norm_num [EvaluateRules, sampleC4, memoryPercent, FVal.gtQ]

/-- C1 counter-evidence: on the sample with mem_total_mb = 0 and
mem_used_mb = 1, EvaluateRules does produce a high_memory candidate, with
actual value +Inf, because the Go float division 1/0 yields +Inf and
+Inf > 95 holds; the claimed behavior (no high_memory candidate whenever
mem_total_mb = 0) fails. No fault is raised: float division by zero does
not panic in Go, so evaluation merely returns this candidate. -/
theorem evaluateRules_zero_total_fires_high_memory :
    (EvaluateRules zeroTotalSample).map (fun a => (a.AlertType, a.Severity, a.ActualValue)) =
      [("high_memory", "warning", FVal.posInf)] := by
  decide

/-- C2 counter-evidence: when TakeAction receives an alert whose severity is
the unhandled value info, the switch falls through with no default case and
the function silently proceeds: it records an alert_actions row for the
alert (with empty action_type, action_status executed and empty details)
and signals no unhandled-severity error; the only attempted effect is that
insert. -/
theorem takeAction_unknown_severity_silently_records :
    (TakeAction false 7 infoAlert db0).1.actions =
      [{ alert_id := 7, action_type := "", action_status := "executed",
         action_details := [] }] ∧
    (TakeAction false 7 infoAlert db0).1.nodes = db0.nodes ∧
    (TakeAction false 7 infoAlert db0).2 =
      [DBEffect.insertAction
        { alert_id := 7, action_type := "", action_status := "executed",
          action_details := [] }] := by
  refine ⟨?_, ?_, ?_⟩ <;> decide

/-- C3: for every metric sample, EvaluateRules produces exactly one
high_temperature candidate with severity critical and threshold 90 when
temperature exceeds 95; exactly one with severity warning and threshold 90
when temperature is in (90, 95]; and none when temperature is at most 90. -/
theorem evaluateRules_high_temperature_thresholds (m : GPUMetric) :
    (95 < m.TemperatureCelsius →
      (tempCandidates m).map (fun a => (a.Severity, a.ThresholdValue)) =
        [("critical", 90)]) ∧
    (90 < m.TemperatureCelsius → m.TemperatureCelsius ≤ 95 →
      (tempCandidates m).map (fun a => (a.Severity, a.ThresholdValue)) =
        [("warning", 90)]) ∧
    (m.TemperatureCelsius ≤ 90 → tempCandidates m = []) := by
  unfold tempCandidates EvaluateRules
  refine ⟨fun h => ?_, fun h1 h2 => ?_, fun h => ?_⟩
  · have h90 : (90:ℚ) < m.TemperatureCelsius := lt_trans (by norm_num) h
    simp only [h90, h, if_true, List.filter_append]
    split_ifs <;> simp
  · have h95 : ¬ ((95:ℚ) < m.TemperatureCelsius) := not_lt.mpr h2
    simp only [h1, h95, if_true, if_false, List.filter_append]
    split_ifs <;> simp
  · have h90 : ¬ ((90:ℚ) < m.TemperatureCelsius) := not_lt.mpr h
    simp only [h90, if_false, List.filter_append]
    split_ifs <;> simp

/-- C3 witness: the three branches of the threshold theorem, each applied
to a concrete sample (temperature 96, 93 and 50 respectively). -/
theorem evaluateRules_high_temperature_thresholds_witness :
    ((95:ℚ) < sampleC4.TemperatureCelsius ∧
      (tempCandidates sampleC4).map (fun a => (a.Severity, a.ThresholdValue)) =
        [("critical", 90)]) ∧
    ((90:ℚ) < sample93.TemperatureCelsius ∧ sample93.TemperatureCelsius ≤ 95 ∧
      (tempCandidates sample93).map (fun a => (a.Severity, a.ThresholdValue)) =
        [("warning", 90)]) ∧
    (zeroTotalSample.TemperatureCelsius ≤ 90 ∧ tempCandidates zeroTotalSample = []) :=
  ⟨⟨by decide, (evaluateRules_high_temperature_thresholds sampleC4).1 (by decide)⟩,
   ⟨by decide, by decide,
     (evaluateRules_high_temperature_thresholds sample93).2.1 (by decide) (by decide)⟩,
   ⟨by decide,
     (evaluateRules_high_temperature_thresholds zeroTotalSample).2.2 (by decide)⟩⟩

/-- Helper: a list of alerts whose alert types are pairwise distinct holds
at most one alert of any given type. -/
theorem countP_alertType_le_one (t : String) (l : List Alert)
    (h : l.Pairwise (fun a b => a.AlertType ≠ b.AlertType)) :
    l.countP (fun a => a.AlertType == t) ≤ 1 := by
  induction l with
  | nil => simp
  | cons a l ih =>
    rcases List.pairwise_cons.mp h with ⟨ha, hl⟩
    rw [List.countP_cons]
    by_cases hat : (a.AlertType == t) = true
    · have hzero : l.countP (fun x => x.AlertType == t) = 0 := by
        rw [List.countP_eq_zero]
        intro x hx
        simp only [beq_iff_eq]
        intro hxt
        exact (ha x hx) (((beq_iff_eq ..).mp hat).trans hxt.symm)
      simp [hat, hzero]
    · simp only [hat, if_false]
      simpa using ih hl

/-- Helper: the candidates EvaluateRules returns carry pairwise distinct
alert types (the three rules emit three fixed, distinct type strings). -/
theorem evaluateRules_types_pairwise (m : GPUMetric) :
    (EvaluateRules m).Pairwise (fun a b => a.AlertType ≠ b.AlertType) := by
  unfold EvaluateRules
  split_ifs <;> simp <;> (try (split_ifs <;> simp))

/-- C10: for every metric sample, EvaluateRules returns at most three
candidates, at most one candidate per alert_type, and every candidate
carries the node id and GPU index of the sample. -/
theorem evaluateRules_candidate_invariants (m : GPUMetric) :
    (EvaluateRules m).length ≤ 3 ∧
    (∀ t : String, (EvaluateRules m).countP (fun a => a.AlertType == t) ≤ 1) ∧
    (EvaluateRules m).all
      (fun a => a.NodeID == m.NodeID && a.GPUIndex == m.GPUIndex) = true := by
  refine ⟨?_, fun t => countP_alertType_le_one t _ (evaluateRules_types_pairwise m), ?_⟩
  · unfold EvaluateRules
    split_ifs <;> simp <;> (try (split_ifs <;> simp))
  · unfold EvaluateRules
    split_ifs <;> simp

/-- C9: for a critical alert, TakeAction appends its ActionRecord with
action_status executed unconditionally: the same row, with status executed
and action_type workload_migration, is inserted whether or not the
node-status UPDATE fails, and when the UPDATE fails the failure is only
logged (the nodes table is untouched) while the recorded status still
reads executed, so action_status does not reflect the side effect. -/
theorem takeAction_critical_status_executed_unconditionally
    (updateFails : Bool) (alertID : Nat) (alert : Alert) (db : DBState)
    (hsev : alert.Severity = "critical") :
    (TakeAction updateFails alertID alert db).1.actions =
      db.actions ++
        [{ alert_id := alertID, action_type := "workload_migration",
           action_status := "executed", action_details := criticalDetails alert }] ∧
    (updateFails = true →
      (TakeAction updateFails alertID alert db).1.nodes = db.nodes) := by
  cases updateFails <;> simp [TakeAction, hsev]

/-- C9 witness: the theorem applied with the UPDATE failure injected
(updateFails true) on a concrete critical alert and database. -/
theorem takeAction_critical_status_executed_unconditionally_witness :
    criticalAlert.Severity = "critical" ∧
    ((TakeAction true 7 criticalAlert db0).1.actions =
      db0.actions ++
        [{ alert_id := 7, action_type := "workload_migration",
           action_status := "executed",
           action_details := criticalDetails criticalAlert }] ∧
    (true = true → (TakeAction true 7 criticalAlert db0).1.nodes = db0.nodes)) :=
  ⟨rfl, takeAction_critical_status_executed_unconditionally true 7 criticalAlert db0 rfl⟩

/-- C6: for a warning alert, TakeAction mutates no node state (the nodes
table, and likewise the alerts and metrics tables, are left untouched) and,
when no action row for the alert id existed before, exactly one
ActionRecord, with action_type notification, exists for that alert id
afterwards. -/
theorem takeAction_warning_no_mutation_one_notification
    (updateFails : Bool) (alertID : Nat) (alert : Alert) (db : DBState)
    (hsev : alert.Severity = "warning")
    (hfresh : ∀ r ∈ db.actions, r.alert_id ≠ alertID) :
    (TakeAction updateFails alertID alert db).1.nodes = db.nodes ∧
    (TakeAction updateFails alertID alert db).1.alerts = db.alerts ∧
    (TakeAction updateFails alertID alert db).1.metrics = db.metrics ∧
    actionsFor (TakeAction updateFails alertID alert db).1 alertID =
      [{ alert_id := alertID, action_type := "notification",
         action_status := "executed", action_details := warningDetails alert }] := by
  have hnil : db.actions.filter (fun r => r.alert_id == alertID) = [] := by
    rw [List.filter_eq_nil_iff]
    intro r hr
    simpa using hfresh r hr
  unfold TakeAction actionsFor
  simp [hsev, List.filter_append, hnil]

/-- C6 witness: the theorem applied to a concrete warning alert, a fresh
alert id and the seed database. -/
theorem takeAction_warning_no_mutation_one_notification_witness :
    warningAlert.Severity = "warning" ∧
    ((TakeAction false 9 warningAlert db0).1.nodes = db0.nodes ∧
     (TakeAction false 9 warningAlert db0).1.alerts = db0.alerts ∧
     (TakeAction false 9 warningAlert db0).1.metrics = db0.metrics ∧
     actionsFor (TakeAction false 9 warningAlert db0).1 9 =
       [{ alert_id := 9, action_type := "notification",
          action_status := "executed",
          action_details := warningDetails warningAlert }]) :=
  ⟨rfl, takeAction_warning_no_mutation_one_notification false 9 warningAlert db0 rfl
    (by simp [db0])⟩

/-- C5: a critical alert processed through CreateAlert (which dispatches it
via TakeAction): every gpu_nodes row for the alert's node ends with status
degraded, and such a row still exists when one existed before; the effect
trace is exactly the node-status UPDATE followed by the alert_actions
INSERT, so the status mutation is attempted before the action record is
written; and, the assigned alert id being fresh, exactly one ActionRecord,
with action_type workload_migration and action_status executed, exists for
that alert id. -/
theorem createAlert_critical_degrades_node_one_migration_record
    (alert : Alert) (db : DBState)
    (hsev : alert.Severity = "critical")
    (hnode : ∃ n ∈ db.nodes, n.node_id = alert.NodeID)
    (hfresh : ∀ r ∈ db.actions, r.alert_id ≠ db.next_alert_id) :
    (∀ n ∈ (CreateAlert false alert db).1.nodes,
        n.node_id = alert.NodeID → n.status = "degraded") ∧
    (∃ n ∈ (CreateAlert false alert db).1.nodes, n.node_id = alert.NodeID) ∧
    (CreateAlert false alert db).2.2 =
      [DBEffect.updateNodeStatus alert.NodeID "degraded",
       DBEffect.insertAction
         { alert_id := (CreateAlert false alert db).2.1,
           action_type := "workload_migration", action_status := "executed",
           action_details := criticalDetails alert }] ∧
    actionsFor (CreateAlert false alert db).1 (CreateAlert false alert db).2.1 =
      [{ alert_id := (CreateAlert false alert db).2.1,
         action_type := "workload_migration", action_status := "executed",
         action_details := criticalDetails alert }] := by
  have hnil : db.actions.filter (fun r => r.alert_id == db.next_alert_id) = [] := by
    rw [List.filter_eq_nil_iff]
    intro r hr
    simpa using hfresh r hr
  refine ⟨?_, ?_, ?_, ?_⟩
  · intro n hn hid
    unfold CreateAlert TakeAction at hn
    simp [hsev, List.mem_map] at hn
    rcases hn with ⟨n0, hn0, hmap⟩
    by_cases h0 : n0.node_id = alert.NodeID
    · rw [if_pos h0] at hmap
      rw [← hmap]
    · rw [if_neg h0] at hmap
      rw [← hmap] at hid
      exact absurd hid h0
  · rcases hnode with ⟨n0, hn0, hid0⟩
    unfold CreateAlert TakeAction
    simp only [hsev, if_true, if_pos rfl, Bool.false_eq_true, if_false]
    refine ⟨if n0.node_id = alert.NodeID then { n0 with status := "degraded" } else n0,
      List.mem_map_of_mem _ hn0, ?_⟩
    rw [if_pos hid0]
    exact hid0
  · unfold CreateAlert TakeAction
    simp [hsev]
  · unfold CreateAlert TakeAction actionsFor
    simp [hsev, List.filter_append, hnil]

/-- C5 witness: the theorem applied to a concrete critical alert for node-1
against the seed database, in which node-1 exists and no action rows are
present. -/
theorem createAlert_critical_degrades_node_one_migration_record_witness :
    criticalAlert.Severity = "critical" ∧
    (∃ n ∈ db0.nodes, n.node_id = criticalAlert.NodeID) ∧
    ((∀ n ∈ (CreateAlert false criticalAlert db0).1.nodes,
        n.node_id = criticalAlert.NodeID → n.status = "degraded") ∧
     (∃ n ∈ (CreateAlert false criticalAlert db0).1.nodes,
        n.node_id = criticalAlert.NodeID) ∧
     (CreateAlert false criticalAlert db0).2.2 =
       [DBEffect.updateNodeStatus criticalAlert.NodeID "degraded",
        DBEffect.insertAction
          { alert_id := (CreateAlert false criticalAlert db0).2.1,
            action_type := "workload_migration", action_status := "executed",
            action_details := criticalDetails criticalAlert }] ∧
     actionsFor (CreateAlert false criticalAlert db0).1
         (CreateAlert false criticalAlert db0).2.1 =
       [{ alert_id := (CreateAlert false criticalAlert db0).2.1,
          action_type := "workload_migration", action_status := "executed",
          action_details := criticalDetails criticalAlert }]) :=
  ⟨rfl, ⟨node1, by simp [db0], rfl⟩,
   createAlert_critical_degrades_node_one_migration_record criticalAlert db0 rfl
     ⟨node1, by simp [db0], rfl⟩ (by simp [db0])⟩

/-- C7: with the store reachable, resolveAlert on an id matching no stored
alert yields the domain-level notFound outcome, which the handler maps to
404, distinct from the storeError outcome mapped to 500, and leaves the
state unchanged; on an id that exists it reports the resolution and
transitions that alert to status resolved with resolved_at set. -/
theorem resolveAlert_notFound_vs_resolved (now alertID : Nat) (db : DBState) :
    ((∀ a ∈ db.alerts, a.id ≠ alertID) →
       resolveAlert false now alertID db = (db, ResolveOutcome.notFound) ∧
       ResolveOutcome.notFound ≠ ResolveOutcome.storeError ∧
       ResolveOutcome.notFound.httpStatus = 404 ∧
       ResolveOutcome.storeError.httpStatus = 500) ∧
    ((∃ a ∈ db.alerts, a.id = alertID) →
       (resolveAlert false now alertID db).2 = ResolveOutcome.resolved alertID ∧
       ∀ a ∈ (resolveAlert false now alertID db).1.alerts,
         a.id = alertID → a.status = "resolved" ∧ a.resolved_at = some now) := by
  constructor
  · intro h
    have hany : db.alerts.any (fun a => a.id == alertID) = false := by
      rw [List.any_eq_false]
      intro a ha
      simpa using h a ha
    unfold resolveAlert
    simp [hany, ResolveOutcome.httpStatus]
  · intro h
    have hany : db.alerts.any (fun a => a.id == alertID) = true := by
      rw [List.any_eq_true]
      rcases h with ⟨a, ha, hid⟩
      exact ⟨a, ha, by simpa using hid⟩
    unfold resolveAlert
    simp only [Bool.false_eq_true, if_false, hany, if_true]
    refine ⟨by trivial, ?_⟩
    intro a ha hid
    simp only [List.mem_map] at ha
    rcases ha with ⟨a0, ha0, hmap⟩
    by_cases h0 : a0.id = alertID
    · rw [if_pos h0] at hmap
      rw [← hmap]
      exact ⟨rfl, rfl⟩
    · rw [if_neg h0] at hmap
      rw [← hmap] at hid
      exact absurd hid h0

/-- C7 witness: a database holding one active alert with id 1; resolving
id 42 yields notFound, and resolving id 1 marks that alert resolved, both
obtained by applying the theorem with its hypotheses discharged on this
concrete state. -/
theorem resolveAlert_notFound_vs_resolved_witness :
    ((∀ a ∈ dbWithAlert.alerts, a.id ≠ 42) ∧
       resolveAlert false 100 42 dbWithAlert = (dbWithAlert, ResolveOutcome.notFound) ∧
       ResolveOutcome.notFound ≠ ResolveOutcome.storeError ∧
       ResolveOutcome.notFound.httpStatus = 404 ∧
       ResolveOutcome.storeError.httpStatus = 500) ∧
    ((∃ a ∈ dbWithAlert.alerts, a.id = 1) ∧
       (resolveAlert false 100 1 dbWithAlert).2 = ResolveOutcome.resolved 1 ∧
       ∀ a ∈ (resolveAlert false 100 1 dbWithAlert).1.alerts,
         a.id = 1 → a.status = "resolved" ∧ a.resolved_at = some 100) :=
  ⟨⟨by decide,
    (resolveAlert_notFound_vs_resolved 100 42 dbWithAlert).1 (by decide)⟩,
   ⟨⟨alertRow1, by simp [dbWithAlert], rfl⟩,
    (resolveAlert_notFound_vs_resolved 100 1 dbWithAlert).2
      ⟨alertRow1, by simp [dbWithAlert], rfl⟩⟩⟩

/-- C8: one Run iteration on an event whose payload fails to decode leaves
the database untouched, so no metric row, no alert and no action record is
written for it, and still commits the message, proceeding to the next
event. -/
theorem runStep_decode_failure_commits_without_writes
    (updateFails : Bool) (db : DBState) :
    RunStep updateFails none db = (db, true) := rfl

end Telemetry
